import Mathlib

/-!
Verification of the posterior-predictive-check pipeline specified for the
`bayes-of-our-lives` notebook collection.

The repository consists of instructional notebooks; the specification
distills from them a small pipeline with three stages (Parameter Sampler,
Replicator, Discrepancy Evaluator).  The pipeline itself is not implemented
in the notebooks, so the pipeline components below are modelled from the
specification text; the parts that *are* implemented in the notebooks (the
rank/indicator-mean computations of the undervote notebook and the
`Recommenderizer` GUI callbacks of the recommender notebook) are translated
directly from that source.

Numeric scalars are modelled as rationals; the external pseudo-random
generator is modelled as an explicit seeded source whose primitive draws are
fixed deterministic functions of the seed and a stream counter.
-/

/-- Modelled from the spec: the injected seedable random source that every
sampling function consumes ("must accept an injected seed/random source so
runs are reproducible").  A source is a seed plus a position in the stream of
primitive draws. -/
structure RandomSource where
  seed : ℕ
  counter : ℕ
deriving DecidableEq, Repr

/-- Advance the random source past one consumed primitive draw. -/
def RandomSource.next (g : RandomSource) : RandomSource :=
  ⟨g.seed, g.counter + 1⟩

/-- Modelled from the spec: the raw pseudo-random stream underlying the
supplied source, as a fixed mixing function of seed and counter (a stand-in
for the external generator's word stream). -/
def entropy (seed ctr : ℕ) : ℕ :=
  (seed * 2654435761 + ctr * 1103515245 + 12345) % 4294967296

/-- Modelled from the spec: the value of `standard_normal_sample()` at a given
seed and stream position — a deterministic stand-in for one standard-normal
variate drawn from the seeded source. -/
def stdNormalVal (seed ctr : ℕ) : ℚ :=
  ((entropy seed ctr : ℤ) - 2147483648) / 1048576

/-- Modelled from the spec: `standard_normal_sample()` — returns the variate
and the advanced source. -/
def stdNormalSample (g : RandomSource) : ℚ × RandomSource :=
  (stdNormalVal g.seed g.counter, g.next)

/-- Modelled from the spec: the value of `standard_t_sample(nu)` at a given
seed and stream position — a deterministic stand-in for one Student-t variate
with `nu` degrees of freedom drawn from the seeded source. -/
def stdTVal (nu : ℚ) (seed ctr : ℕ) : ℚ :=
  stdNormalVal seed ctr * (1 + 1 / (1 + nu * nu))

/-- Modelled from the spec: `standard_t_sample(nu)` — returns the variate and
the advanced source. -/
def stdTSample (nu : ℚ) (g : RandomSource) : ℚ × RandomSource :=
  (stdTVal nu g.seed g.counter, g.next)

/-- Modelled from the spec: the value of `poisson_sample(lambda)` at a given
seed and stream position.  The model encodes the Poisson distribution's
support: a draw is a non-negative integer, and when `lambda = 0` the
distribution is the point mass at `0`, so the draw is identically `0` (the
`lam ≤ 0` branch is only ever reached at `lambda = 0`, since the Replicator
rejects negative `lambda` before sampling). -/
def poissonVal (lam : ℚ) (seed ctr : ℕ) : ℕ :=
  if lam ≤ 0 then 0 else entropy seed ctr % (1 + 2 * (⌈lam⌉).toNat)

/-- Modelled from the spec: `poisson_sample(lambda)` — returns the count and
the advanced source. -/
def poissonSample (lam : ℚ) (g : RandomSource) : ℕ × RandomSource :=
  (poissonVal lam g.seed g.counter, g.next)

/-- Modelled from the spec: the value of `binomial_sample(n, theta)` at a
given seed and stream position; the model encodes the support `{0, …, n}`. -/
def binomialVal (n : ℕ) (theta : ℚ) (seed ctr : ℕ) : ℕ :=
  (entropy seed ctr * (theta.num.toNat + 1)) % (n + 1)

/-- Modelled from the spec: `binomial_sample(n, theta)` — returns the count
and the advanced source. -/
def binomialSample (n : ℕ) (theta : ℚ) (g : RandomSource) : ℕ × RandomSource :=
  (binomialVal n theta g.seed g.counter, g.next)

/-- Modelled from the spec: the value of `gamma_sample(shape, rate)` at a
given seed and stream position; positive whenever `shape` and `rate` are
positive, matching the distribution's support. -/
def gammaVal (shape rate : ℚ) (seed ctr : ℕ) : ℚ :=
  (((entropy seed ctr % 65536) + 1 : ℕ) : ℚ) / 256 * (shape / rate)

/-- Modelled from the spec: `gamma_sample(shape, rate)` — returns the variate
and the advanced source. -/
def gammaSample (shape rate : ℚ) (g : RandomSource) : ℚ × RandomSource :=
  (gammaVal shape rate g.seed g.counter, g.next)

/-- Modelled from the spec: the likelihood-family tag
`{normal, student_t, poisson, binomial, gamma}` the Replicator dispatches
on. -/
inductive Family where
  | normal
  | student_t
  | poisson
  | binomial
  | gamma
deriving DecidableEq, Repr

/-- Modelled from the spec: one `ParameterDraw` — an ordered tuple of named
scalar or vector values, e.g. `{beta: vector, intercept: f64, sigma: f64}`.
Fields a family does not use are irrelevant to it; family-specific
parameters (`nu`, `lam`, `theta`, `shape`, `rate`) are optional, matching
"must be present in the draw" phrasing.  The Poisson intensity is named
`lam` after the notebooks' variable of that name. -/
structure ParameterDraw where
  beta : List ℚ := []
  intercept : ℚ := 0
  sigma : ℚ := 0
  nu : Option ℚ := none
  lam : Option ℚ := none
  theta : Option ℚ := none
  shape : Option ℚ := none
  rate : Option ℚ := none
deriving DecidableEq, Repr

/-- Modelled from the spec: the optional covariate inputs of the Replicator —
a design matrix `X` for the regression families, per-row trial counts for the
binomial family, and the explicit `N` used when there are no covariates. -/
structure Covariates where
  X : List (List ℚ) := []
  n_trials : List ℕ := []
  n : ℕ := 0
deriving DecidableEq, Repr

/-- Modelled from the spec: the error taxonomy of section 7
(InvalidParameter, ShapeMismatch, EmptyBatch, OutOfRange). -/
inductive PipelineError where
  | invalidParameter
  | shapeMismatch
  | emptyBatch
  | outOfRange
deriving DecidableEq, Repr

/-- Dot product of the coefficient vector with one covariate row,
`dot(beta, X[i])`. -/
def dot (u v : List ℚ) : ℚ :=
  (List.zipWith (fun a b => a * b) u v).sum

/-- Generate one synthetic value per element of `rows`, threading the random
source through the row generator `f` from left to right. -/
def replicateRows (f : α → RandomSource → ℚ × RandomSource) :
    List α → RandomSource → List ℚ × RandomSource
  | [], g => ([], g)
  | a :: rest, g =>
      let p := f a g
      let q := replicateRows f rest p.2
      (p.1 :: q.1, q.2)

/-- Modelled from the spec: `replicate(draw, family, covariates)`
(section 4.2).  For each family it validates the family's parameter domain
(raising `InvalidParameter` exactly as listed in the contract: `nu > 0` for
student_t, `lambda ≥ 0` for poisson, `theta ∈ [0,1]` for binomial,
`shape, rate > 0` for gamma; domain validation precedes any sampling) and
then draws one synthetic value per mirrored data point from the supplied
random source.  Shape validation of the covariate matrix against the
coefficient vector is the caller-side fail-fast check of section 7 and is
not part of this per-draw contract. -/
def replicate : ParameterDraw → Family → Covariates → RandomSource →
    Except PipelineError (List ℚ)
  | draw, Family.normal, cov, g =>
      Except.ok (replicateRows (fun row g0 =>
        match stdNormalSample g0 with
        | (eps, g1) => (dot draw.beta row + draw.intercept + draw.sigma * eps, g1))
        cov.X g).1
  | draw, Family.student_t, cov, g =>
      match draw.nu with
      | none => Except.error PipelineError.invalidParameter
      | some nu =>
          if nu ≤ 0 then Except.error PipelineError.invalidParameter
          else Except.ok (replicateRows (fun row g0 =>
            match stdTSample nu g0 with
            | (eps, g1) => (dot draw.beta row + draw.intercept + draw.sigma * eps, g1))
            cov.X g).1
  | draw, Family.poisson, cov, g =>
      match draw.lam with
      | none => Except.error PipelineError.invalidParameter
      | some lam =>
          if lam < 0 then Except.error PipelineError.invalidParameter
          else Except.ok (replicateRows (fun _ g0 =>
            match poissonSample lam g0 with
            | (k, g1) => ((k : ℚ), g1))
            (List.range cov.n) g).1
  | draw, Family.binomial, cov, g =>
      match draw.theta with
      | none => Except.error PipelineError.invalidParameter
      | some theta =>
          if theta < 0 ∨ 1 < theta then Except.error PipelineError.invalidParameter
          else Except.ok (replicateRows (fun nt g0 =>
            match binomialSample nt theta g0 with
            | (k, g1) => ((k : ℚ), g1))
            cov.n_trials g).1
  | draw, Family.gamma, cov, g =>
      match draw.shape, draw.rate with
      | some shape, some rate =>
          if shape ≤ 0 ∨ rate ≤ 0 then Except.error PipelineError.invalidParameter
          else Except.ok (replicateRows (fun _ g0 =>
            match gammaSample shape rate g0 with
            | (y, g1) => (y, g1))
            (List.range cov.n) g).1
      | _, _ => Except.error PipelineError.invalidParameter

/-- Length of the covariate/observed data a replicated dataset mirrors:
the row count of `X` for the regression families, the trial-count list for
binomial, the explicit `N` otherwise. -/
def outputLength : Family → Covariates → ℕ
  | Family.normal, cov => cov.X.length
  | Family.student_t, cov => cov.X.length
  | Family.poisson, cov => cov.n
  | Family.binomial, cov => cov.n_trials.length
  | Family.gamma, cov => cov.n

/-- Modelled from the spec: `CheckResult` — the observed statistic value, the
full distribution of replicated statistic values, and the derived rank. -/
structure CheckResult where
  observed_stat : ℚ
  replicated_stats : List ℚ
  rank : ℚ
deriving DecidableEq, Repr

/-- Modelled from the spec: `evaluate(observed, replicated_batch, statistic)`
(section 4.3).  Computes the observed statistic, the replicated statistics in
batch order, and `rank = (count of replicated_stats ≤ observed_stat) /
batch_size`; fails with an error if `batch_size == 0`. -/
def evaluate (observed : List ℚ) (batch : List (List ℚ))
    (statistic : List ℚ → ℚ) : Except PipelineError CheckResult :=
  if batch.length = 0 then Except.error PipelineError.emptyBatch
  else
    let os := statistic observed
    let rs := batch.map statistic
    Except.ok ⟨os, rs, ((rs.countP fun r => decide (r ≤ os)) : ℚ) / batch.length⟩

/-- Mean of a dataset, the built-in discrepancy statistic used by the spec's
concrete scenario. -/
def mean (xs : List ℚ) : ℚ :=
  xs.sum / xs.length

/-- Translated from the undervote notebook:
`np.mean(traces["delta_vns"] <= 0)` — the mean of the indicator of trace
values lying at or below a threshold. -/
def meanLE (xs : List ℚ) (t : ℚ) : ℚ :=
  ((xs.countP fun x => decide (x ≤ t)) : ℚ) / xs.length

/-- Translated from the undervote notebook:
`np.mean(np.abs(traces["delta_vns"]) < 0.001)` — the mean of the indicator of
trace values of absolute value below a threshold. -/
def meanAbsLT (xs : List ℚ) (e : ℚ) : ℚ :=
  ((xs.countP fun x => decide (|x| < e)) : ℚ) / xs.length

/-- Modelled from the spec: the Parameter Sampler's `all_draws()` — the full
batch as a finite sequence in storage order. -/
def all_draws (batch : List ParameterDraw) : List ParameterDraw :=
  batch

/-- Modelled from the spec: the Parameter Sampler's `draw_at(i)` — the i-th
draw of a fixed batch, 0-indexed, failing with `OutOfRange` when `i` is at
least the batch size. -/
def draw_at (batch : List ParameterDraw) (i : ℕ) :
    Except PipelineError ParameterDraw :=
  if h : i < batch.length then Except.ok (batch.get ⟨i, h⟩)
  else Except.error PipelineError.outOfRange

/-- A parameter draw with every field at its default, used to build concrete
sampler batches. -/
def defaultDraw : ParameterDraw := {}

/-- Translated from the recommender notebook: the state touched by the
`Recommenderizer` GUI — the module-global `labels` array (entries are floats,
`NaN` for unlabeled documents, modelled as `Option ℚ` with `none` for `NaN`),
the instance's `next_index`, and its `_index_history` and `_label_history`
lists.  The display panes are presentation-only and are not part of the
state. -/
structure Recommenderizer where
  labels : List (Option ℚ)
  next_index : ℕ
  index_history : List ℕ
  label_history : List ℚ
deriving DecidableEq, Repr

/-- Translated from the recommender notebook: `_sample()` — choose the next
index and update the displayed document.  The choice made by
`choose_next_index()` (random or Thompson-sampled) is passed in as `chosen`;
`_sample` only stores it. -/
def Recommenderizer.sample (s : Recommenderizer) (chosen : ℕ) :
    Recommenderizer :=
  { s with next_index := chosen }

/-- Translated from the recommender notebook: `_record_yes` — set
`labels[next_index] = 1`, append the index and the label `1` to the
histories, then `_sample()`. -/
def Recommenderizer.record_yes (s : Recommenderizer) (chosen : ℕ) :
    Recommenderizer :=
  Recommenderizer.sample
    { s with
      labels := s.labels.set s.next_index (some 1),
      index_history := s.index_history ++ [s.next_index],
      label_history := s.label_history ++ [1] } chosen

/-- Translated from the recommender notebook: `_record_no` — set
`labels[next_index] = 0`, append the index and the label `0` to the
histories, then `_sample()`. -/
def Recommenderizer.record_no (s : Recommenderizer) (chosen : ℕ) :
    Recommenderizer :=
  Recommenderizer.sample
    { s with
      labels := s.labels.set s.next_index (some 0),
      index_history := s.index_history ++ [s.next_index],
      label_history := s.label_history ++ [0] } chosen

/-- Translated from the recommender notebook: `__init__` — empty histories
over a given labels array, followed by the initial `_sample()` call. -/
def Recommenderizer.init (labels0 : List (Option ℚ)) (chosen : ℕ) :
    Recommenderizer :=
  Recommenderizer.sample ⟨labels0, 0, [], []⟩ chosen

theorem replicateRows_length (f : α → RandomSource → ℚ × RandomSource) :
    ∀ (rows : List α) (g : RandomSource),
      ((replicateRows f rows g).1).length = rows.length := by
  intro rows
  induction rows with
  | nil => intro g; rfl
  | cons a rest ih => intro g; simp [replicateRows, ih]

theorem replicateRows_getD (f : α → RandomSource → ℚ × RandomSource)
    (hf : ∀ a g0, (f a g0).2 = g0.next) (a0 : α) :
    ∀ (rows : List α) (g : RandomSource) (i : ℕ), i < rows.length →
      ((replicateRows f rows g).1).getD i 0 =
        (f (rows.getD i a0) ⟨g.seed, g.counter + i⟩).1 := by
  intro rows
  induction rows with
  | nil => intro g i h; simp at h
  | cons a rest ih =>
      intro g i h
      cases i with
      | zero =>
          cases g
          simp [replicateRows]
      | succ i =>
          have hlen : i < rest.length := by simpa using h
          simp only [replicateRows, List.getD_cons_succ]
          rw [hf a g]
          rw [ih _ i hlen]
          have : g.counter + 1 + i = g.counter + (i + 1) := by omega
          simp [RandomSource.next, this]

theorem replicateRows_mem (f : α → RandomSource → ℚ × RandomSource) :
    ∀ (rows : List α) (g : RandomSource) (y : ℚ),
      y ∈ (replicateRows f rows g).1 → ∃ a g0, y = (f a g0).1 := by
  intro rows
  induction rows with
  | nil => intro g y h; simp [replicateRows] at h
  | cons a rest ih =>
      intro g y h
      simp only [replicateRows, List.mem_cons] at h
      rcases h with h | h
      · exact ⟨a, g, h⟩
      · exact ih _ y h

theorem countRatio_unitInterval (c n : ℕ) (hc : c ≤ n) (hn : 0 < n) :
    0 ≤ (c : ℚ) / n ∧ (c : ℚ) / n ≤ 1 := by
  constructor
  · positivity
  · rw [div_le_one (by exact_mod_cast hn)]
    exact_mod_cast hc

/-- C1: evaluate returns a CheckResult with the quantile rank. -/
theorem evaluate_rank_spec :
    (∀ (observed : List ℚ) (batch : List (List ℚ)) (stat : List ℚ → ℚ),
        batch ≠ [] →
        ∃ cr, evaluate observed batch stat = Except.ok cr ∧
          cr.observed_stat = stat observed ∧
          cr.replicated_stats = batch.map stat ∧
          cr.rank = ((cr.replicated_stats.countP fun r =>
            decide (r ≤ cr.observed_stat)) : ℚ) / batch.length) ∧
    evaluate [1,2,3,4,5] [[2,2,2],[3,3,3],[5,5,5]] mean =
      Except.ok ⟨3, [2,3,5], 2/3⟩ := by
  constructor
  · intro observed batch stat hb
    have hl : ¬ batch.length = 0 := by simpa [List.length_eq_zero] using hb
    unfold evaluate
    rw [if_neg hl]
    exact ⟨_, rfl, rfl, rfl, rfl⟩
  · unfold evaluate mean
    norm_num [List.countP, List.countP.go]

theorem evaluate_rank_spec_witness :
    ([[2,2,2],[3,3,3],[5,5,5]] : List (List ℚ)) ≠ [] ∧
    ∃ cr, evaluate [1,2,3,4,5] [[2,2,2],[3,3,3],[5,5,5]] mean = Except.ok cr ∧
      cr.observed_stat = mean [1,2,3,4,5] ∧
      cr.replicated_stats = [[2,2,2],[3,3,3],[5,5,5]].map mean ∧
      cr.rank = ((cr.replicated_stats.countP fun r =>
        decide (r ≤ cr.observed_stat)) : ℚ) / ([[2,2,2],[3,3,3],[5,5,5]] : List (List ℚ)).length :=
  ⟨by simp, evaluate_rank_spec.1 [1,2,3,4,5] [[2,2,2],[3,3,3],[5,5,5]] mean (by simp)⟩

/-- C7: the rank is invariant under any permutation of the batch. -/
theorem evaluate_perm_invariant :
    ∀ (observed : List ℚ) (b1 b2 : List (List ℚ)) (stat : List ℚ → ℚ),
      List.Perm b1 b2 → b1 ≠ [] →
      ∃ cr1 cr2, evaluate observed b1 stat = Except.ok cr1 ∧
        evaluate observed b2 stat = Except.ok cr2 ∧ cr1.rank = cr2.rank := by
  intro observed b1 b2 stat hperm hb1
  have hb2 : b2 ≠ [] := by
    intro h
    rw [h] at hperm
    exact hb1 (List.Perm.eq_nil hperm)
  have h1 : ¬ b1.length = 0 := by simpa [List.length_eq_zero] using hb1
  have h2 : ¬ b2.length = 0 := by simpa [List.length_eq_zero] using hb2
  unfold evaluate
  rw [if_neg h1, if_neg h2]
  refine ⟨_, _, rfl, rfl, ?_⟩
  have hmap : List.Perm (b1.map stat) (b2.map stat) := hperm.map stat
  simp only
  rw [hmap.countP_eq, hperm.length_eq]

theorem evaluate_perm_invariant_witness :
    List.Perm ([[1],[2]] : List (List ℚ)) ([[2],[1]] : List (List ℚ)) ∧
    ([[1],[2]] : List (List ℚ)) ≠ [] ∧
    (∃ cr1 cr2, evaluate [0] [[1],[2]] mean = Except.ok cr1 ∧
      evaluate [0] [[2],[1]] mean = Except.ok cr2 ∧ cr1.rank = cr2.rank) :=
  ⟨by decide, by simp,
    evaluate_perm_invariant [0] [[1],[2]] [[2],[1]] mean (by decide) (by simp)⟩

/-- C9: every rank produced by the evaluation step lies in the closed unit
interval, as does every indicator-mean computed in the undervote notebook. -/
theorem rank_unit_interval :
    (∀ (observed : List ℚ) (batch : List (List ℚ)) (stat : List ℚ → ℚ)
        (cr : CheckResult), evaluate observed batch stat = Except.ok cr →
        0 ≤ cr.rank ∧ cr.rank ≤ 1) ∧
    (∀ (xs : List ℚ) (t : ℚ), xs ≠ [] →
        0 ≤ meanLE xs t ∧ meanLE xs t ≤ 1) ∧
    (∀ (xs : List ℚ) (e : ℚ), xs ≠ [] →
        0 ≤ meanAbsLT xs e ∧ meanAbsLT xs e ≤ 1) := by
  refine ⟨?_, ?_, ?_⟩
  · intro observed batch stat cr h
    unfold evaluate at h
    by_cases hl : batch.length = 0
    · rw [if_pos hl] at h
      cases h
    · rw [if_neg hl] at h
      cases h
      exact countRatio_unitInterval _ _
        (by simpa using List.countP_le_length _)
        (Nat.pos_of_ne_zero hl)
  · intro xs t hxs
    have hl : xs.length ≠ 0 := by simpa [List.length_eq_zero] using hxs
    unfold meanLE
    exact countRatio_unitInterval _ _ (List.countP_le_length _)
      (Nat.pos_of_ne_zero hl)
  · intro xs e hxs
    have hl : xs.length ≠ 0 := by simpa [List.length_eq_zero] using hxs
    unfold meanAbsLT
    exact countRatio_unitInterval _ _ (List.countP_le_length _)
      (Nat.pos_of_ne_zero hl)

theorem rank_unit_interval_witness :
    evaluate [0] [[1],[2]] mean = Except.ok ⟨0, [1, 2], 0⟩ ∧
    (0 ≤ (⟨0, [1, 2], 0⟩ : CheckResult).rank ∧
      (⟨0, [1, 2], 0⟩ : CheckResult).rank ≤ 1) :=
  ⟨by unfold evaluate mean; norm_num [List.countP, List.countP.go],
    rank_unit_interval.1 [0] [[1],[2]] mean ⟨0, [1, 2], 0⟩
      (by unfold evaluate mean; norm_num [List.countP, List.countP.go])⟩

/-- C6: all_draws yields the batch in storage order, draw_at returns the
i-th yielded item for every in-range index and fails with OutOfRange exactly
when the index reaches the batch size; in particular index 5 on a batch of
size 3 is rejected. -/
theorem sampler_contract :
    (∀ batch : List ParameterDraw, all_draws batch = batch) ∧
    (∀ (batch : List ParameterDraw) (i : ℕ) (h : i < batch.length),
        draw_at batch i = Except.ok ((all_draws batch).get ⟨i, h⟩)) ∧
    (∀ (batch : List ParameterDraw) (i : ℕ),
        batch.length ≤ i ↔ draw_at batch i = Except.error PipelineError.outOfRange) ∧
    draw_at [defaultDraw, defaultDraw, defaultDraw] 5 =
      Except.error PipelineError.outOfRange := by
  refine ⟨fun _ => rfl, ?_, ?_, rfl⟩
  · intro batch i h
    unfold draw_at
    rw [dif_pos h]
    rfl
  · intro batch i
    constructor
    · intro h
      unfold draw_at
      rw [dif_neg (by omega)]
    · intro h
      by_contra hlt
      push_neg at hlt
      unfold draw_at at h
      rw [dif_pos hlt] at h
      cases h

theorem sampler_contract_witness :
    (1 < ([defaultDraw, defaultDraw] : List ParameterDraw).length) ∧
    draw_at [defaultDraw, defaultDraw] 1 = Except.ok defaultDraw :=
  ⟨by simp, by
    have h : 1 < ([defaultDraw, defaultDraw] : List ParameterDraw).length := by simp
    have := sampler_contract.2.1 [defaultDraw, defaultDraw] 1 h
    simpa using this⟩


/-- C2: for the normal family, replicate produces, for every row i of the
covariate matrix, dot(beta, X[i]) + intercept + sigma times the i-th
standard-normal variate drawn from the supplied random source. -/
theorem replicate_normal_formula :
    ∀ (draw : ParameterDraw) (cov : Covariates) (g : RandomSource) (i : ℕ),
      i < cov.X.length →
      ∃ ys, replicate draw Family.normal cov g = Except.ok ys ∧
        ys.getD i 0 = dot draw.beta (cov.X.getD i []) + draw.intercept +
          draw.sigma * stdNormalVal g.seed (g.counter + i) := by
  intro draw cov g i hi
  refine ⟨_, rfl, ?_⟩
  rw [replicateRows_getD _ (fun a g0 => rfl) [] cov.X g i hi]
  rfl

/-- C5: for the student_t family, replicate fails with InvalidParameter
whenever the draw's nu is non-positive (the check precedes any sampling, so
the replication is aborted rather than clamped), and for positive nu it
produces dot(beta, X[i]) + intercept + sigma times the i-th Student-t
variate drawn from the supplied random source. -/
theorem replicate_student_t_spec :
    ∀ (draw : ParameterDraw) (cov : Covariates) (g : RandomSource) (nu : ℚ),
      draw.nu = some nu →
      ((nu ≤ 0 → replicate draw Family.student_t cov g =
          Except.error PipelineError.invalidParameter) ∧
       (0 < nu → ∀ i, i < cov.X.length →
          ∃ ys, replicate draw Family.student_t cov g = Except.ok ys ∧
            ys.getD i 0 = dot draw.beta (cov.X.getD i []) + draw.intercept +
              draw.sigma * stdTVal nu g.seed (g.counter + i))) := by
  intro draw cov g nu hnu
  constructor
  · intro hle
    simp only [replicate, hnu]
    rw [if_pos hle]
  · intro hpos i hi
    simp only [replicate, hnu]
    rw [if_neg (not_le.mpr hpos)]
    refine ⟨_, rfl, ?_⟩
    rw [replicateRows_getD _ (fun a g0 => rfl) [] cov.X g i hi]
    rfl

/-- C8: for the poisson family, every value of every replicated dataset is
a non-negative integer, and a draw with lambda = 0 always yields the
all-zero dataset. -/
theorem replicate_poisson_support :
    ∀ (draw : ParameterDraw) (cov : Covariates) (g : RandomSource) (lam : ℚ),
      draw.lam = some lam →
      ((∀ ys, replicate draw Family.poisson cov g = Except.ok ys →
          ∀ y ∈ ys, 0 ≤ y ∧ ∃ k : ℕ, y = (k : ℚ)) ∧
       (lam = 0 → ∃ ys, replicate draw Family.poisson cov g = Except.ok ys ∧
          ∀ y ∈ ys, y = 0)) := by
  intro draw cov g lam hlam
  constructor
  · intro ys hok y hy
    simp only [replicate, hlam] at hok
    by_cases hneg : lam < 0
    · rw [if_pos hneg] at hok
      cases hok
    · rw [if_neg hneg] at hok
      cases hok
      obtain ⟨a, g0, hyv⟩ := replicateRows_mem _ _ _ _ hy
      refine ⟨?_, poissonVal lam g0.seed g0.counter, ?_⟩
      · rw [hyv]
        simp [poissonSample]
      · rw [hyv]
        rfl
  · intro hzero
    simp only [replicate, hlam, hzero]
    rw [if_neg (by norm_num)]
    refine ⟨_, rfl, ?_⟩
    intro y hy
    obtain ⟨a, g0, hyv⟩ := replicateRows_mem _ _ _ _ hy
    rw [hyv]
    simp [poissonSample, poissonVal]

/-- C3: for every family and valid draw, a replicated dataset has exactly
the length of the covariate/observed data it mirrors — the row count of X
for the regression families, the trial-count list for binomial, the
explicit N otherwise. -/
theorem replicate_length :
    ∀ (draw : ParameterDraw) (family : Family) (cov : Covariates)
      (g : RandomSource) (ys : List ℚ),
      replicate draw family cov g = Except.ok ys →
      ys.length = outputLength family cov := by
  intro draw family cov g ys h
  cases family with
  | normal =>
      simp only [replicate] at h
      cases h
      simp [outputLength, replicateRows_length]
  | student_t =>
      simp only [replicate] at h
      split at h
      · cases h
      · split at h
        · cases h
        · cases h
          simp [outputLength, replicateRows_length]
  | poisson =>
      simp only [replicate] at h
      split at h
      · cases h
      · split at h
        · cases h
        · cases h
          simp [outputLength, replicateRows_length]
  | binomial =>
      simp only [replicate] at h
      split at h
      · cases h
      · split at h
        · cases h
        · cases h
          simp [outputLength, replicateRows_length]
  | gamma =>
      simp only [replicate] at h
      split at h
      · split at h
        · cases h
        · cases h
          simp [outputLength, replicateRows_length]
      · cases h

/-- C4: replicate consumes entropy only from the injected seedable source,
so two runs from equal seeds and stream positions, with the same draw,
produce identical replicated datasets. -/
theorem replicate_deterministic :
    ∀ (draw : ParameterDraw) (family : Family) (cov : Covariates)
      (g1 g2 : RandomSource), g1.seed = g2.seed → g1.counter = g2.counter →
      replicate draw family cov g1 = replicate draw family cov g2 := by
  intro draw family cov g1 g2 hs hc
  cases g1
  cases g2
  simp only at hs hc
  rw [hs, hc]

theorem replicate_normal_formula_witness :
    (1 < (Covariates.mk [[4],[5]] [] 0).X.length) ∧
    ∃ ys, replicate (ParameterDraw.mk [1] 3 2 none none none none none)
        Family.normal (Covariates.mk [[4],[5]] [] 0) ⟨0,0⟩ = Except.ok ys ∧
      ys.getD 1 0 = dot [1] ((Covariates.mk [[4],[5]] [] 0).X.getD 1 []) + 3 +
        2 * stdNormalVal 0 (0 + 1) :=
  ⟨by decide,
    replicate_normal_formula (ParameterDraw.mk [1] 3 2 none none none none none)
      (Covariates.mk [[4],[5]] [] 0) ⟨0,0⟩ 1 (by decide)⟩

theorem replicate_student_t_spec_witness :
    (ParameterDraw.mk [1] 0 1 (some 2) none none none none).nu = some 2 ∧
    (((2 : ℚ) ≤ 0 → replicate (ParameterDraw.mk [1] 0 1 (some 2) none none none none)
        Family.student_t (Covariates.mk [[1]] [] 0) ⟨0,0⟩ =
        Except.error PipelineError.invalidParameter) ∧
     ((0 : ℚ) < 2 → ∀ i, i < (Covariates.mk [[1]] [] 0).X.length →
        ∃ ys, replicate (ParameterDraw.mk [1] 0 1 (some 2) none none none none)
            Family.student_t (Covariates.mk [[1]] [] 0) ⟨0,0⟩ = Except.ok ys ∧
          ys.getD i 0 = dot [1] ((Covariates.mk [[1]] [] 0).X.getD i []) + 0 +
            1 * stdTVal 2 0 (0 + i))) :=
  ⟨rfl, replicate_student_t_spec (ParameterDraw.mk [1] 0 1 (some 2) none none none none)
    (Covariates.mk [[1]] [] 0) ⟨0,0⟩ 2 rfl⟩

theorem replicate_poisson_support_witness :
    (ParameterDraw.mk [] 0 0 none (some 0) none none none).lam = some 0 ∧
    ((∀ ys, replicate (ParameterDraw.mk [] 0 0 none (some 0) none none none)
        Family.poisson (Covariates.mk [] [] 2) ⟨7,0⟩ = Except.ok ys →
        ∀ y ∈ ys, 0 ≤ y ∧ ∃ k : ℕ, y = (k : ℚ)) ∧
     ((0 : ℚ) = 0 → ∃ ys, replicate (ParameterDraw.mk [] 0 0 none (some 0) none none none)
        Family.poisson (Covariates.mk [] [] 2) ⟨7,0⟩ = Except.ok ys ∧
        ∀ y ∈ ys, y = 0)) :=
  ⟨rfl, replicate_poisson_support (ParameterDraw.mk [] 0 0 none (some 0) none none none)
    (Covariates.mk [] [] 2) ⟨7,0⟩ 0 rfl⟩

theorem replicate_length_witness :
    ∃ ys, replicate defaultDraw Family.normal (Covariates.mk [[1],[2]] [] 0)
        ⟨0,0⟩ = Except.ok ys ∧
      ys.length = outputLength Family.normal (Covariates.mk [[1],[2]] [] 0) :=
  ⟨_, rfl, replicate_length defaultDraw Family.normal
    (Covariates.mk [[1],[2]] [] 0) ⟨0,0⟩ _ rfl⟩

theorem replicate_deterministic_witness :
    (RandomSource.mk 5 0).seed = (RandomSource.mk 5 0).seed ∧
    (RandomSource.mk 5 0).counter = (RandomSource.mk 5 0).counter ∧
    replicate defaultDraw Family.normal (Covariates.mk [[1]] [] 0) ⟨5,0⟩ =
      replicate defaultDraw Family.normal (Covariates.mk [[1]] [] 0) ⟨5,0⟩ :=
  ⟨rfl, rfl, replicate_deterministic defaultDraw Family.normal
    (Covariates.mk [[1]] [] 0) ⟨5,0⟩ ⟨5,0⟩ rfl rfl⟩

theorem getD_set_self {α : Type} (d : α) :
    ∀ (l : List α) (i : ℕ) (v : α), i < l.length →
      (l.set i v).getD i d = v := by
  intro l
  induction l with
  | nil => intro i v h; simp at h
  | cons a rest ih =>
      intro i v h
      cases i with
      | zero => rfl
      | succ i =>
          have : i < rest.length := by simpa using h
          simpa [List.set, List.getD_cons_succ] using ih i v this

theorem getD_set_ne {α : Type} (d : α) :
    ∀ (l : List α) (i j : ℕ) (v : α), j ≠ i →
      (l.set i v).getD j d = l.getD j d := by
  intro l
  induction l with
  | nil => intro i j v hne; rfl
  | cons a rest ih =>
      intro i j v hne
      cases i with
      | zero =>
          cases j with
          | zero => exact absurd rfl hne
          | succ j => rfl
      | succ i =>
          cases j with
          | zero => rfl
          | succ j =>
              have : j ≠ i := fun hc => hne (by rw [hc])
              simpa [List.set, List.getD_cons_succ] using ih i j v this

/-- C10: each yes/no button press sets exactly the labels entry at the
current next_index (to 1 for yes, 0 for no), leaves every other entry and
the array length unchanged, and appends exactly the matching (index, label)
pair to the two histories, which therefore always have equal length
(starting equal at initialisation). -/
theorem recommender_button_frame :
    ∀ (s : Recommenderizer) (chosen : ℕ), s.next_index < s.labels.length →
      ((s.record_yes chosen).labels.getD s.next_index none = some 1 ∧
       (∀ j, j ≠ s.next_index →
         (s.record_yes chosen).labels.getD j none = s.labels.getD j none) ∧
       (s.record_yes chosen).labels.length = s.labels.length ∧
       (s.record_yes chosen).index_history = s.index_history ++ [s.next_index] ∧
       (s.record_yes chosen).label_history = s.label_history ++ [1]) ∧
      ((s.record_no chosen).labels.getD s.next_index none = some 0 ∧
       (∀ j, j ≠ s.next_index →
         (s.record_no chosen).labels.getD j none = s.labels.getD j none) ∧
       (s.record_no chosen).labels.length = s.labels.length ∧
       (s.record_no chosen).index_history = s.index_history ++ [s.next_index] ∧
       (s.record_no chosen).label_history = s.label_history ++ [0]) ∧
      (s.index_history.length = s.label_history.length →
        ((s.record_yes chosen).index_history.length =
            (s.record_yes chosen).label_history.length ∧
         (s.record_no chosen).index_history.length =
            (s.record_no chosen).label_history.length)) ∧
      (∀ (labels0 : List (Option ℚ)) (c0 : ℕ),
        (Recommenderizer.init labels0 c0).index_history.length =
          (Recommenderizer.init labels0 c0).label_history.length) := by
  intro s chosen hlt
  refine ⟨⟨?_, ?_, ?_, rfl, rfl⟩, ⟨?_, ?_, ?_, rfl, rfl⟩, ?_, ?_⟩
  · exact getD_set_self none s.labels s.next_index (some 1) hlt
  · intro j hj
    exact getD_set_ne none s.labels s.next_index j (some 1) hj
  · simp [Recommenderizer.record_yes, Recommenderizer.sample]
  · exact getD_set_self none s.labels s.next_index (some 0) hlt
  · intro j hj
    exact getD_set_ne none s.labels s.next_index j (some 0) hj
  · simp [Recommenderizer.record_no, Recommenderizer.sample]
  · intro heq
    constructor <;>
      simp [Recommenderizer.record_yes, Recommenderizer.record_no,
        Recommenderizer.sample, heq]
  · intro labels0 c0
    rfl

theorem recommender_button_frame_witness :
    ((Recommenderizer.mk [none, some 1, none] 2 [1] [1]).next_index <
      (Recommenderizer.mk [none, some 1, none] 2 [1] [1]).labels.length) ∧
    (((Recommenderizer.mk [none, some 1, none] 2 [1] [1]).record_yes 0).labels.getD 2 none = some 1 ∧
     ((Recommenderizer.mk [none, some 1, none] 2 [1] [1]).record_yes 0).index_history = [1, 2] ∧
     ((Recommenderizer.mk [none, some 1, none] 2 [1] [1]).record_no 0).labels.getD 2 none = some 0) := by
  have h := recommender_button_frame (Recommenderizer.mk [none, some 1, none] 2 [1] [1]) 0
    (by decide)
  exact ⟨by decide, h.1.1, by simpa using h.1.2.2.2.1, h.2.1.1⟩
